import Mathlib

/-!
Verification of the StructureScout trading bot's risk, position-management
and news-calendar modules against their specification.

Shallow embedding conventions:
* Python floats are modelled as rationals (`ℚ`); the claims under study are
  about comparisons and exact running sums, not float rounding.
* Calendar dates and ISO week numbers are abstract integers; wall-clock
  datetimes are integers (minutes).  `datetime.now()` is passed in as an
  explicit `Clock` / time argument.
* Python's `int()` conversion truncates toward zero; it is embedded as
  `rat_trunc`.
* Mutating methods become functions from the old state to the result
  together with the new state.
-/

namespace StructureScout

/-! ### Risk manager (src/modules/risk_manager.py) -/

/-- The ambient clock: `datetime.now().date()` as an abstract day number and
`datetime.now().isocalendar()[1]` as the ISO week number. -/
structure Clock where
  today : ℤ
  isoWeek : ℤ
deriving DecidableEq, Repr

/-- The mutable attributes of a `RiskManager` instance. -/
structure RiskState where
  account_balance : ℚ
  risk_per_trade : ℚ
  daily_loss_limit : ℚ
  weekly_loss_limit : ℚ
  max_trades_per_day : ℤ
  max_trades_per_week : ℤ
  point_value : ℚ
  daily_pnl : ℚ
  weekly_pnl : ℚ
  trades_today : ℤ
  trades_this_week : ℤ
  open_positions : List String
  last_reset_date : ℤ
  last_week_reset : ℤ
deriving DecidableEq, Repr

/-- The distinct reason strings produced by the risk checks, abstracted to an
enumeration (the numeric parts of the formatted strings are recoverable from
the state). -/
inductive RiskReason where
  | dailyLossBreached
  | dailyMaxTrades
  | dailyOK
  | weeklyLossBreached
  | weeklyMaxTrades
  | weeklyOK
  | maxPositions
  | allPassed
deriving DecidableEq, Repr

/-- Python's `int()` applied to a rational: truncation toward zero. -/
def rat_trunc (q : ℚ) : ℤ :=
  if q < 0 then ⌈q⌉ else ⌊q⌋

/-- RiskManager._reset_daily_counters. -/
def reset_daily_counters (c : Clock) (s : RiskState) : RiskState :=
  { s with daily_pnl := 0, trades_today := 0, last_reset_date := c.today }

/-- RiskManager._reset_weekly_counters. -/
def reset_weekly_counters (c : Clock) (s : RiskState) : RiskState :=
  { s with weekly_pnl := 0, trades_this_week := 0, last_week_reset := c.isoWeek }

/-- The daily rollover step at the head of `check_daily_risk_limits`: reset
the daily counters when the calendar date changed. -/
def daily_rollover (c : Clock) (s : RiskState) : RiskState :=
  if c.today ≠ s.last_reset_date then reset_daily_counters c s else s

/-- The weekly rollover step at the head of `check_weekly_risk_limits`: reset
the weekly counters when the ISO week changed. -/
def weekly_rollover (c : Clock) (s : RiskState) : RiskState :=
  if c.isoWeek ≠ s.last_week_reset then reset_weekly_counters c s else s

/-- RiskManager.check_daily_risk_limits: roll the daily counters over when the
calendar date changed, then test the daily loss limit and the daily trade cap. -/
def check_daily_risk_limits (c : Clock) (s : RiskState) :
    (Bool × RiskReason) × RiskState :=
  let s1 := daily_rollover c s
  if s1.daily_pnl < -(s1.account_balance * s1.daily_loss_limit) then
    ((false, RiskReason.dailyLossBreached), s1)
  else if s1.max_trades_per_day ≤ s1.trades_today then
    ((false, RiskReason.dailyMaxTrades), s1)
  else
    ((true, RiskReason.dailyOK), s1)

/-- RiskManager.check_weekly_risk_limits: roll the weekly counters over when
the ISO week changed, then test the weekly loss limit and the weekly trade cap. -/
def check_weekly_risk_limits (c : Clock) (s : RiskState) :
    (Bool × RiskReason) × RiskState :=
  let s1 := weekly_rollover c s
  if s1.weekly_pnl < -(s1.account_balance * s1.weekly_loss_limit) then
    ((false, RiskReason.weeklyLossBreached), s1)
  else if s1.max_trades_per_week ≤ s1.trades_this_week then
    ((false, RiskReason.weeklyMaxTrades), s1)
  else
    ((true, RiskReason.weeklyOK), s1)

/-- RiskManager.can_take_trade: daily checks, then weekly checks, then the
fixed cap of 3 simultaneous open positions. -/
def can_take_trade (c : Clock) (s : RiskState) : (Bool × RiskReason) × RiskState :=
  let dr := check_daily_risk_limits c s
  if dr.1.1 = false then ((false, dr.1.2), dr.2)
  else
    let wr := check_weekly_risk_limits c dr.2
    if wr.1.1 = false then ((false, wr.1.2), wr.2)
    else if 3 ≤ wr.2.open_positions.length then
      ((false, RiskReason.maxPositions), wr.2)
    else
      ((true, RiskReason.allPassed), wr.2)

/-- RiskManager.record_trade. -/
def record_trade (pnl : ℚ) (s : RiskState) : RiskState :=
  { s with
    daily_pnl := s.daily_pnl + pnl
    weekly_pnl := s.weekly_pnl + pnl
    trades_today := s.trades_today + 1
    trades_this_week := s.trades_this_week + 1 }

/-- RiskManager.calculate_position_size.  In the `micro_live` branch Python's
`override_fixed_size or 2` yields 2 both when the override is absent and when
it equals 0. -/
def calculate_position_size (s : RiskState) (mode : String)
    (stop_distance_ticks : ℤ) (override_fixed_size : Option ℤ) : ℤ :=
  if mode = "observation" ∨ mode = "paper_trading" then 0
  else if mode = "micro_live" then
    match override_fixed_size with
    | some v => if v ≠ 0 then v else 2
    | none => 2
  else if mode = "full_live" then
    if stop_distance_ticks ≤ 0 then 0
    else
      let risk_amount := s.account_balance * s.risk_per_trade
      let dollar_risk_per_contract := (stop_distance_ticks : ℚ) * s.point_value
      max (rat_trunc (risk_amount / dollar_risk_per_contract)) 0
  else 0

/-- The eight fields RiskManager.save_state writes to the JSON state file.
JSON round-trips numbers, strings and lists exactly, and
`date.fromisoformat(d.isoformat()) == d`, so serialisation of each field is
modelled as the identity on its value. -/
structure RiskStateFile where
  account_balance : ℚ
  daily_pnl : ℚ
  weekly_pnl : ℚ
  trades_today : ℤ
  trades_this_week : ℤ
  open_positions : List String
  last_reset_date : ℤ
  last_week_reset : ℤ
deriving DecidableEq, Repr

/-- RiskManager.save_state: serialise the eight persisted fields and report
success. -/
def save_state (s : RiskState) : Bool × RiskStateFile :=
  (true,
    { account_balance := s.account_balance
      daily_pnl := s.daily_pnl
      weekly_pnl := s.weekly_pnl
      trades_today := s.trades_today
      trades_this_week := s.trades_this_week
      open_positions := s.open_positions
      last_reset_date := s.last_reset_date
      last_week_reset := s.last_week_reset })

/-- RiskManager.load_state: a missing or unreadable file returns false and
leaves the state untouched; otherwise the eight persisted fields are
assigned from the file. -/
def load_state (file? : Option RiskStateFile) (s : RiskState) : Bool × RiskState :=
  match file? with
  | none => (false, s)
  | some f =>
    (true,
      { s with
        account_balance := f.account_balance
        daily_pnl := f.daily_pnl
        weekly_pnl := f.weekly_pnl
        trades_today := f.trades_today
        trades_this_week := f.trades_this_week
        open_positions := f.open_positions
        last_reset_date := f.last_reset_date
        last_week_reset := f.last_week_reset })

/-- Restatement of `can_take_trade` following the specification's words: a
flat cascade of (1) daily rollover, (2) daily loss limit, (3) daily trade cap,
(4) weekly rollover, (5) weekly loss limit, (6) weekly trade cap, (7) the
fixed cap of 3 open positions, returning the first failing reason. -/
def can_take_trade_spec (c : Clock) (s : RiskState) :
    (Bool × RiskReason) × RiskState :=
  let s1 := daily_rollover c s
  if s1.daily_pnl < -(s1.account_balance * s1.daily_loss_limit) then
    ((false, RiskReason.dailyLossBreached), s1)
  else if s1.max_trades_per_day ≤ s1.trades_today then
    ((false, RiskReason.dailyMaxTrades), s1)
  else
    let s2 := weekly_rollover c s1
    if s2.weekly_pnl < -(s2.account_balance * s2.weekly_loss_limit) then
      ((false, RiskReason.weeklyLossBreached), s2)
    else if s2.max_trades_per_week ≤ s2.trades_this_week then
      ((false, RiskReason.weeklyMaxTrades), s2)
    else if 3 ≤ s2.open_positions.length then
      ((false, RiskReason.maxPositions), s2)
    else
      ((true, RiskReason.allPassed), s2)

/-! ### Position manager (src/modules/position_manager.py)

Wall-clock datetimes are minutes (`ℤ`); `max_hold_hours = 3` is 180 minutes. -/

/-- The per-ticket record stored in `PositionManager.open_positions`. -/
structure PositionRecord where
  ticket : ℕ
  setup_type : String
  direction : String
  entry_time : ℤ
  entry_price : ℚ
  stop_loss : ℚ
  take_profit_1 : ℚ
  take_profit_2 : ℚ
  original_size : ℚ
  current_size : ℚ
  partial_exit_done : Bool
  trailing_stop_price : ℚ
  last_higher_low : ℚ
  last_lower_high : ℚ
  max_hold_time : ℤ
deriving DecidableEq, Repr

/-- Modelled from the spec: the MT5-side data providers `_get_current_price`,
`_find_new_higher_low` and `_find_new_lower_high` are stubs in the repository
("Implementation would get current bid/ask from MT5"), so the current time,
the current price and the structure levels derived from recent bars are
inputs from the market environment.  The MT5 order operations
(`_close_position`, `_partial_close`, `_move_stop_to_breakeven`,
`_update_stop_loss`) return `True` in the code and are embedded so. -/
structure MarketEnv where
  current_time : ℤ
  current_price : ℚ
  find_new_higher_low : ℚ → ℚ
  find_new_lower_high : ℚ → ℚ

/-- The `action_type` field of a management action. -/
inductive ActionType where
  | max_hold_time_close
  | partial_exit
  | trailing_stop
  | mean_reversion_exit
deriving DecidableEq, Repr

/-- A management action as returned by the check helpers (the fields of the
Python action dictionaries that carry data; reasons and timestamps are
omitted). -/
structure Action where
  action_type : ActionType
  action_taken : Bool
  exit_size : Option ℚ := none
  new_stop : Option ℚ := none
deriving DecidableEq, Repr

/-- PositionManager.partial_exit_ratio (50% partial exit). -/
def partial_exit_ratio : ℚ := 1 / 2

/-- PositionManager.max_hold_hours, in minutes. -/
def max_hold_minutes : ℤ := 3 * 60

/-- The tracked positions, `PositionManager.open_positions`, as a partial map
from ticket numbers to records. -/
def PMState : Type := ℕ → Option PositionRecord

/-- Write one ticket's record. -/
def set_position (ps : PMState) (t : ℕ) (p : PositionRecord) : PMState :=
  fun u => if u = t then some p else ps u

/-- Drop one ticket's record (Python's `del self.open_positions[ticket]`). -/
def del_position (ps : PMState) (t : ℕ) : PMState :=
  fun u => if u = t then none else ps u

/-- The setup analysis fields `PositionManager.open_position` reads. -/
structure SetupData where
  setup_type : String
  setup_direction : String
  entry_price : ℚ
  stop_loss_price : ℚ
  take_profit_1 : ℚ
  take_profit_2 : ℚ
deriving DecidableEq, Repr

/-- PositionManager.open_position: build the management record and start
tracking it (`entry_time` is the current wall clock, in minutes). -/
def pm_open_position (now : ℤ) (sd : SetupData) (ticket : ℕ) (ps : PMState) :
    PositionRecord × PMState :=
  let p : PositionRecord :=
    { ticket := ticket
      setup_type := sd.setup_type
      direction := sd.setup_direction
      entry_time := now
      entry_price := sd.entry_price
      stop_loss := sd.stop_loss_price
      take_profit_1 := sd.take_profit_1
      take_profit_2 := sd.take_profit_2
      original_size := 0
      current_size := 0
      partial_exit_done := false
      trailing_stop_price := sd.stop_loss_price
      last_higher_low := sd.entry_price
      last_lower_high := sd.entry_price
      max_hold_time := now + max_hold_minutes }
  (p, set_position ps ticket p)

/-- PositionManager._handle_max_hold_time: issue a full close via MT5 (which
succeeds, per the embedded stub) and report the action; the record itself is
not modified and the ticket is not deleted from tracking. -/
def handle_max_hold_time (_p : PositionRecord) : Action :=
  { action_type := ActionType.max_hold_time_close, action_taken := true }

/-- PositionManager._check_partial_exit: at TP1, close 50% of the original
size, mark the partial exit done and move the MT5 stop to breakeven (the
record's stop fields are not changed by the breakeven move). -/
def check_partial_exit (env : MarketEnv) (p : PositionRecord) :
    Action × PositionRecord :=
  if p.direction = "long" ∧ p.take_profit_1 ≤ env.current_price then
    ({ action_type := ActionType.partial_exit, action_taken := true
       exit_size := some (p.original_size * partial_exit_ratio) },
     { p with partial_exit_done := true })
  else if p.direction = "short" ∧ env.current_price ≤ p.take_profit_1 then
    ({ action_type := ActionType.partial_exit, action_taken := true
       exit_size := some (p.original_size * partial_exit_ratio) },
     { p with partial_exit_done := true })
  else
    ({ action_type := ActionType.partial_exit, action_taken := false }, p)

/-- PositionManager._update_trailing_stop: for a long position, when price
makes a new high above `last_higher_low`, ratchet the trailing stop up to the
newly found higher low if that is strictly higher; symmetrically for shorts. -/
def update_trailing_stop (env : MarketEnv) (p : PositionRecord) :
    Action × PositionRecord :=
  if p.direction = "long" then
    if p.last_higher_low < env.current_price then
      let new_higher_low := env.find_new_higher_low env.current_price
      if p.trailing_stop_price < new_higher_low then
        ({ action_type := ActionType.trailing_stop, action_taken := true
           new_stop := some new_higher_low },
         { p with trailing_stop_price := new_higher_low
                  last_higher_low := env.current_price })
      else ({ action_type := ActionType.trailing_stop, action_taken := false }, p)
    else ({ action_type := ActionType.trailing_stop, action_taken := false }, p)
  else if p.direction = "short" then
    if env.current_price < p.last_lower_high then
      let new_lower_high := env.find_new_lower_high env.current_price
      if new_lower_high < p.trailing_stop_price then
        ({ action_type := ActionType.trailing_stop, action_taken := true
           new_stop := some new_lower_high },
         { p with trailing_stop_price := new_lower_high
                  last_lower_high := env.current_price })
      else ({ action_type := ActionType.trailing_stop, action_taken := false }, p)
    else ({ action_type := ActionType.trailing_stop, action_taken := false }, p)
  else ({ action_type := ActionType.trailing_stop, action_taken := false }, p)

/-- PositionManager._check_mean_reversion_exit: at the target (TP1, the VWAP
for mean-reversion setups) issue a full close via MT5; the record is not
modified and the ticket is not deleted from tracking. -/
def check_mean_reversion_exit (env : MarketEnv) (p : PositionRecord) : Action :=
  if p.direction = "long" ∧ p.take_profit_1 ≤ env.current_price then
    { action_type := ActionType.mean_reversion_exit, action_taken := true }
  else if p.direction = "short" ∧ env.current_price ≤ p.take_profit_1 then
    { action_type := ActionType.mean_reversion_exit, action_taken := true }
  else
    { action_type := ActionType.mean_reversion_exit, action_taken := false }

/-- The `status` field of a `check_position_management` result. -/
inductive CheckStatus where
  | no_position_found
  | completed
deriving DecidableEq, Repr

/-- The result dictionary of `check_position_management`. -/
structure CheckResult where
  status : CheckStatus
  actions : List Action
  position : Option PositionRecord := none
deriving DecidableEq, Repr

/-- The body of `PositionManager.check_position_management` on one tracked
record: check 1 max hold time, check 2 partial exit at TP1 (when not yet
done), check 3 trailing stop, check 4 mean-reversion exit (for
`setup_type == mean_reversion`); each action is appended when its
`action_taken` flag is set (the max-hold action is appended unconditionally),
and the mutated record is returned alongside. -/
def manage_checks (env : MarketEnv) (p : PositionRecord) :
    CheckResult × PositionRecord :=
  let acts1 : List Action :=
    if p.max_hold_time ≤ env.current_time then [handle_max_hold_time p] else []
  let step2 : List Action × PositionRecord :=
    if p.partial_exit_done then ([], p)
    else
      let ap := check_partial_exit env p
      (if ap.1.action_taken then [ap.1] else [], ap.2)
  let ap3 := update_trailing_stop env step2.2
  let acts3 : List Action := if ap3.1.action_taken then [ap3.1] else []
  let acts4 : List Action :=
    if ap3.2.setup_type = "mean_reversion" then
      let a := check_mean_reversion_exit env ap3.2
      if a.action_taken then [a] else []
    else []
  ({ status := CheckStatus.completed
     actions := acts1 ++ step2.1 ++ acts3 ++ acts4
     position := some ap3.2 },
   ap3.2)

/-- PositionManager.check_position_management: an untracked ticket reports
`no_position_found`; a tracked one runs the four checks, and the mutated
record stays under its ticket (the Python dictionary entry is mutated in
place; nothing removes it). -/
def check_position_management (env : MarketEnv) (ticket : ℕ) (ps : PMState) :
    CheckResult × PMState :=
  match ps ticket with
  | none => ({ status := CheckStatus.no_position_found, actions := [] }, ps)
  | some p =>
    let r := manage_checks env p
    (r.1, set_position ps ticket r.2)

/-- PositionManager.close_position (the public method): close via MT5 and,
on success (always, per the embedded stub), drop the ticket from tracking. -/
def pm_close_position (ticket : ℕ) (ps : PMState) : Bool × PMState :=
  (true, del_position ps ticket)

/-- A sequence of management checks on one ticket, keeping only the state. -/
def run_checks (envs : List MarketEnv) (ticket : ℕ) (ps : PMState) : PMState :=
  envs.foldl (fun s e => (check_position_management e ticket s).2) ps

/-! ### News calendar (src/modules/news_calendar.py)

Times of day are minutes since midnight; blackout bounds may leave the day as
integers. -/

/-- HIGH_IMPACT_EVENTS. -/
def HIGH_IMPACT_EVENTS : List String :=
  ["FOMC", "Federal Reserve", "Non-Farm Payrolls", "NFP", "CPI", "Inflation",
   "GDP", "Fed Chair", "Interest Rate", "Unemployment", "Retail Sales",
   "ISM Manufacturing", "ISM Services"]

/-- An economic calendar event dictionary: its `time` string, `title` and
`impact` (a missing key reads as the empty string). -/
structure Event where
  time : String
  title : String
  impact : String
deriving DecidableEq, Repr

/-- Python's `str.lower()` (per-character lowering on the event strings in
play), at the character-list level. -/
def lower_chars (s : String) : List Char :=
  s.toList.map Char.toLower

/-- Case-insensitive substring test, Python's `a.lower() in b.lower()`. -/
def contains_lower (needle haystack : String) : Bool :=
  decide (lower_chars needle <:+: lower_chars haystack)

/-- classify_event_impact: `high` when the title holds a high-impact keyword,
otherwise the provided impact when it is one of high/medium/low, otherwise
`low`. -/
def classify_event_impact (e : Event) : String :=
  if HIGH_IMPACT_EVENTS.any (fun k => contains_lower k e.title) then "high"
  else
    let provided := String.mk (lower_chars e.impact)
    if provided = "high" ∨ provided = "medium" ∨ provided = "low" then provided
    else "low"

/-- Python's `s.split(single-colon)` on the characters of `s`. -/
def split_on_colon : List Char → List (List Char)
  | [] => [[]]
  | c :: rest =>
    match split_on_colon rest with
    | [] => [[c]]
    | g :: gs => if c = ':' then [] :: g :: gs else (c :: g) :: gs

/-- Python's `int(s)` on one split part: defined on all-digit non-empty
parts, failing otherwise. -/
def nat_of_digits? (cs : List Char) : Option ℕ :=
  if cs = [] then none
  else cs.foldl (fun acc c =>
    acc.bind (fun n => if c.isDigit then some (n * 10 + (c.toNat - 48)) else none))
    (some 0)

/-- Parse an `HH:MM` event time to minutes since midnight, Python's
`hour, minute = map(int, s.split(single-colon))`; a string on which that
raises is `none` (the caller skips the event). -/
def parse_event_time (s : String) : Option ℤ :=
  match (split_on_colon s.toList).map nat_of_digits? with
  | [some h, some m] => some ((h : ℤ) * 60 + m)
  | _ => none

/-- identify_news_blackout_periods: for each high-impact event with a
parsable time, the window from `before_minutes` before it to `after_minutes`
after it. -/
def identify_news_blackout_periods (events : List Event)
    (before_minutes after_minutes : ℤ) : List (ℤ × ℤ) :=
  events.foldr
    (fun e acc =>
      if classify_event_impact e = "high" then
        match parse_event_time e.time with
        | some t => (t - before_minutes, t + after_minutes) :: acc
        | none => acc
      else acc)
    []

/-- Two-digit decimal rendering of a field of `strftime`. -/
def pad2 (n : ℕ) : String :=
  if n < 10 then "0" ++ toString n else toString n

/-- A time of day rendered as `strftime` renders `HH:MM`. -/
def format_hm (t : ℤ) : String :=
  pad2 (t.toNat / 60 % 24) ++ ":" ++ pad2 (t.toNat % 60)

/-- is_trading_allowed_now: scan the blackout periods in order and refuse with
the first period whose inclusive bounds contain the current time; the reason
names a generic high-impact event and the period's start time. -/
def is_trading_allowed_now (current_time : ℤ)
    (blackout_periods : List (ℤ × ℤ)) : Bool × String :=
  match blackout_periods.find?
      (fun se => decide (se.1 ≤ current_time ∧ current_time ≤ se.2)) with
  | some se =>
    (false, "Trading paused: high-impact news event at " ++ format_hm se.1)
  | none => (true, "No news conflicts")

/-- The mutable attributes of a `NewsCalendarManager`. -/
structure CalState where
  blackout_periods : List (ℤ × ℤ)
  last_update : Option ℤ
deriving DecidableEq, Repr

/-- NewsCalendarManager.update_calendar.  The production calendar fetch does
network I/O (the in-repository `fetch_daily_economic_calendar` is a
placeholder), so its outcome is an input: an exception anywhere in the
`try` body returns false and leaves the tracked blackout set untouched; a
fetched event list replaces the blackout set in one assignment. -/
def update_calendar (fetched : Except Unit (List Event)) (now : ℤ)
    (st : CalState) : Bool × CalState :=
  match fetched with
  | Except.error _ => (false, st)
  | Except.ok events =>
    (true,
      { blackout_periods := identify_news_blackout_periods events 15 30
        last_update := some now })

/-- NewsCalendarManager.is_safe_to_trade at an explicit check time. -/
def is_safe_to_trade (check_time : ℤ) (st : CalState) : Bool × String :=
  is_trading_allowed_now check_time st.blackout_periods

/-! ### Concrete scenario data shared by theorems and witnesses -/

/-- The specification's position-sizing scenario: $5000 balance with the
default risk parameters of `RiskManager.__init__`, no trades recorded. -/
def rm5000 : RiskState :=
  { account_balance := 5000, risk_per_trade := 1 / 100, daily_loss_limit := 3 / 100,
    weekly_loss_limit := 6 / 100, max_trades_per_day := 3, max_trades_per_week := 12,
    point_value := 1 / 4, daily_pnl := 0, weekly_pnl := 0, trades_today := 0,
    trades_this_week := 0, open_positions := [], last_reset_date := 100,
    last_week_reset := 10 }

/-! ### Theorems -/

/-- Clamping at 0 erases the difference between Python's truncating `int()`
and the mathematical floor. -/
theorem rat_trunc_max_eq_floor_max (q : ℚ) : max (rat_trunc q) 0 = max ⌊q⌋ 0 := by
  unfold rat_trunc
  split_ifs with h
  · have h1 : ⌈q⌉ ≤ (0 : ℤ) := Int.ceil_le.2 (by push_cast; exact h.le)
    have h2 : ⌊q⌋ ≤ (0 : ℤ) := Int.floor_nonpos h.le
    omega
  · rfl

/-- C8: `calculate_position_size` returns 0 in the observation and
paper-trading modes, the fixed default size 2 in the micro-live testing mode,
and in full-live mode returns `floor(balance × risk_per_trade /
(stop_distance_ticks × point_value))` clamped to be nonnegative, with a
non-positive stop distance giving 0 rather than a division fault; on the
specification's scenario (balance 5000, risk 1%, 20-tick stop, point value
0.25) the size is 10. -/
theorem calculate_position_size_policy (s : RiskState) (stop : ℤ)
    (ov : Option ℤ) :
    calculate_position_size s "observation" stop ov = 0
    ∧ calculate_position_size s "paper_trading" stop ov = 0
    ∧ calculate_position_size s "micro_live" stop none = 2
    ∧ (stop ≤ 0 → calculate_position_size s "full_live" stop ov = 0)
    ∧ (0 < stop → calculate_position_size s "full_live" stop ov
        = max ⌊s.account_balance * s.risk_per_trade / ((stop : ℚ) * s.point_value)⌋ 0)
    ∧ calculate_position_size rm5000 "full_live" 20 none = 10 := by
  refine ⟨rfl, rfl, rfl, ?_, ?_,
    by simp only [calculate_position_size, rm5000]
       norm_num [rat_trunc]
       decide⟩
  · intro h
    simp [calculate_position_size, h]
  · intro h
    have hns : ¬ stop ≤ 0 := by omega
    simp only [calculate_position_size]
    simp [hns]
    exact rat_trunc_max_eq_floor_max _

/-- C8 witness: the hypotheses of the conditional parts hold at stop
distances 0 and 20 respectively. -/
theorem calculate_position_size_policy_witness :
    calculate_position_size rm5000 "full_live" 0 none = 0
    ∧ calculate_position_size rm5000 "full_live" 20 none
        = max ⌊rm5000.account_balance * rm5000.risk_per_trade
            / ((20 : ℚ) * rm5000.point_value)⌋ 0 :=
  ⟨(calculate_position_size_policy rm5000 0 none).2.2.2.1 (by decide),
   (calculate_position_size_policy rm5000 20 none).2.2.2.2.1 (by decide)⟩

/-- C10: saving the risk-manager state and loading the file into any
risk-manager instance restores exactly the eight persisted fields to the
saved values, and both operations report success. -/
theorem save_load_state_roundtrip (s t : RiskState) :
    (save_state s).1 = true
    ∧ (load_state (some (save_state s).2) t).1 = true
    ∧ (load_state (some (save_state s).2) t).2
        = { t with
            account_balance := s.account_balance
            daily_pnl := s.daily_pnl
            weekly_pnl := s.weekly_pnl
            trades_today := s.trades_today
            trades_this_week := s.trades_this_week
            open_positions := s.open_positions
            last_reset_date := s.last_reset_date
            last_week_reset := s.last_week_reset } :=
  ⟨rfl, rfl, rfl⟩

/-- C9: the daily calendar refresh leaves the previously tracked blackout set
(and the whole manager state) intact and reports failure when the fetch
raises, and on success replaces the blackout set in one assignment with the
periods derived from the fetched events. -/
theorem update_calendar_atomic (now : ℤ) (st : CalState) (events : List Event) :
    update_calendar (Except.error ()) now st = (false, st)
    ∧ (update_calendar (Except.ok events) now st).1 = true
    ∧ (update_calendar (Except.ok events) now st).2.blackout_periods
        = identify_news_blackout_periods events 15 30 :=
  ⟨rfl, rfl, rfl⟩

/-- C1: in a state with no rollover pending (the current date equals
`last_reset_date` and the current ISO week equals `last_week_reset`),
`can_take_trade` answers false whenever the daily P&L is below the negative
daily loss allowance, and false whenever the daily trade count has reached
the cap, whatever the weekly P&L, weekly trade count and open-position count
are. -/
theorem can_take_trade_daily_gates (c : Clock) (s : RiskState)
    (hd : c.today = s.last_reset_date) (hw : c.isoWeek = s.last_week_reset) :
    (s.daily_pnl < -(s.account_balance * s.daily_loss_limit) →
      (can_take_trade c s).1.1 = false)
    ∧ (s.max_trades_per_day ≤ s.trades_today →
      (can_take_trade c s).1.1 = false) := by
  have hd' : ¬ c.today ≠ s.last_reset_date := by simp [hd]
  have hroll : daily_rollover c s = s := if_neg hd'
  constructor
  · intro h
    simp [can_take_trade, check_daily_risk_limits, hroll, h]
  · intro h
    by_cases hloss : s.daily_pnl < -(s.account_balance * s.daily_loss_limit) <;>
      simp [can_take_trade, check_daily_risk_limits, hroll, hloss, h]

/-- C1 witness: a state that breached the daily loss allowance and reached
the daily trade cap on the current day is refused. -/
theorem can_take_trade_daily_gates_witness :
    ((can_take_trade ⟨100, 10⟩
        { rm5000 with daily_pnl := -200, trades_today := 3 }).1.1 = false)
    ∧ ((can_take_trade ⟨100, 10⟩
        { rm5000 with daily_pnl := -200, trades_today := 3 }).1.1 = false) :=
  ⟨(can_take_trade_daily_gates ⟨100, 10⟩
      { rm5000 with daily_pnl := -200, trades_today := 3 } rfl rfl).1 (by norm_num [rm5000]),
   (can_take_trade_daily_gates ⟨100, 10⟩
      { rm5000 with daily_pnl := -200, trades_today := 3 } rfl rfl).2 (by norm_num [rm5000])⟩

/-- C2: `can_take_trade` evaluates its conditions in the specification's
fixed order — daily rollover, daily loss limit, daily trade cap, weekly
rollover, weekly loss limit, weekly trade cap, the fixed cap of 3 open
positions — returning the first failing reason, and success when all pass:
it coincides with the flat cascade `can_take_trade_spec` written from the
specification's words, on every clock and state. -/
theorem can_take_trade_follows_spec_order (c : Clock) (s : RiskState) :
    can_take_trade c s = can_take_trade_spec c s := by
  unfold can_take_trade can_take_trade_spec check_daily_risk_limits check_weekly_risk_limits
  dsimp only
  generalize daily_rollover c s = s1
  by_cases h1 : s1.daily_pnl < -(s1.account_balance * s1.daily_loss_limit)
  · simp [h1]
  · by_cases h2 : s1.max_trades_per_day ≤ s1.trades_today
    · simp [h1, h2]
    · simp only [h1, h2, if_false, ite_false, reduceIte]
      generalize weekly_rollover c s1 = s2
      by_cases h3 : s2.weekly_pnl < -(s2.account_balance * s2.weekly_loss_limit)
      · simp [h3]
      · by_cases h4 : s2.max_trades_per_week ≤ s2.trades_this_week <;>
          by_cases h5 : 3 ≤ s2.open_positions.length <;>
          simp [h3, h4, h5]

/-- C6: over any sequence of recorded trades, `daily_pnl` moves by exactly
the running sum of the recorded P&L values and `trades_today` by one per
trade; and once the calendar date has changed, the admission check performed
before any new trade is recorded resets `daily_pnl` to 0 (the post-state of
`can_take_trade` carries `daily_pnl = 0` whatever reason it reports). -/
theorem record_trade_running_sum (s : RiskState) (pnls : List ℚ) :
    ((pnls.foldl (fun st p => record_trade p st) s).daily_pnl
        = s.daily_pnl + pnls.sum
      ∧ (pnls.foldl (fun st p => record_trade p st) s).trades_today
        = s.trades_today + pnls.length)
    ∧ ∀ (c : Clock) (s2 : RiskState), c.today ≠ s2.last_reset_date →
        (can_take_trade c s2).2.daily_pnl = 0 := by
  constructor
  · induction pnls generalizing s with
    | nil => simp
    | cons p rest ih =>
      obtain ⟨ih1, ih2⟩ := ih (record_trade p s)
      refine ⟨?_, ?_⟩
      · rw [List.foldl_cons, ih1]
        simp [record_trade]
        ring
      · rw [List.foldl_cons, ih2]
        simp [record_trade]
        ring
  · intro c s2 hne
    have hroll : daily_rollover c s2 = reset_daily_counters c s2 := if_pos hne
    have hzero : ∀ t : RiskState, t.daily_pnl = 0 → (weekly_rollover c t).daily_pnl = 0 := by
      intro t ht
      unfold weekly_rollover
      split_ifs
      · exact ht
      · exact ht
    unfold can_take_trade check_daily_risk_limits check_weekly_risk_limits
    dsimp only
    rw [hroll]
    have ht1 : (reset_daily_counters c s2).daily_pnl = 0 := rfl
    generalize hgen : reset_daily_counters c s2 = t1 at ht1 ⊢
    by_cases h1 : t1.daily_pnl < -(t1.account_balance * t1.daily_loss_limit)
    · simpa [h1] using ht1
    · by_cases h2 : t1.max_trades_per_day ≤ t1.trades_today
      · simpa [h1, h2] using ht1
      · simp only [h1, h2, if_false, ite_false, reduceIte]
        have ht2 : (weekly_rollover c t1).daily_pnl = 0 := hzero t1 ht1
        generalize weekly_rollover c t1 = t2 at ht2 ⊢
        by_cases h3 : t2.weekly_pnl < -(t2.account_balance * t2.weekly_loss_limit) <;>
          by_cases h4 : t2.max_trades_per_week ≤ t2.trades_this_week <;>
          by_cases h5 : 3 ≤ t2.open_positions.length <;>
          simpa [h3, h4, h5] using ht2

/-! ### Position-management theorems -/

/-- A breakout long setup used by the max-hold scenario. -/
def sdBreakout : SetupData :=
  { setup_type := "breakout_pullback", setup_direction := "long",
    entry_price := 21200, stop_loss_price := 21150,
    take_profit_1 := 21250, take_profit_2 := 21300 }

/-- The record tracked for ticket 1 after opening the breakout position at
time 0 (so its max hold time is minute 180). -/
def recHold : PositionRecord := (pm_open_position 0 sdBreakout 1 (fun _ => none)).1

/-- The tracking state holding only the breakout position. -/
def psHold : PMState := (pm_open_position 0 sdBreakout 1 (fun _ => none)).2

/-- A market snapshot 200 minutes after entry (past the 3-hour hold limit),
with price at TP1. -/
def envHold : MarketEnv :=
  { current_time := 200, current_price := 21250,
    find_new_higher_low := fun _ => 0, find_new_lower_high := fun _ => 0 }

/-- Sub-checks do not change a record's identity fields: the partial-exit
check can only set `partial_exit_done`. -/
theorem check_partial_exit_preserves (env : MarketEnv) (p : PositionRecord) :
    ((check_partial_exit env p).2).direction = p.direction
    ∧ ((check_partial_exit env p).2).setup_type = p.setup_type
    ∧ ((check_partial_exit env p).2).take_profit_1 = p.take_profit_1
    ∧ ((check_partial_exit env p).2).trailing_stop_price = p.trailing_stop_price := by
  unfold check_partial_exit
  split_ifs <;> simp

/-- The trailing-stop update does not change a record's identity fields. -/
theorem update_trailing_stop_preserves (env : MarketEnv) (p : PositionRecord) :
    ((update_trailing_stop env p).2).direction = p.direction
    ∧ ((update_trailing_stop env p).2).setup_type = p.setup_type
    ∧ ((update_trailing_stop env p).2).take_profit_1 = p.take_profit_1
    ∧ ((update_trailing_stop env p).2).partial_exit_done = p.partial_exit_done
    ∧ (update_trailing_stop env p).1.action_type = ActionType.trailing_stop := by
  unfold update_trailing_stop
  dsimp only
  split_ifs <;> simp

/-- The trailing stop only ratchets: upward for longs, downward for shorts. -/
theorem update_trailing_stop_ratchet (env : MarketEnv) (p : PositionRecord) :
    (p.direction = "long" →
      p.trailing_stop_price ≤ ((update_trailing_stop env p).2).trailing_stop_price)
    ∧ (p.direction = "short" →
      ((update_trailing_stop env p).2).trailing_stop_price ≤ p.trailing_stop_price) := by
  constructor
  · intro hdir
    unfold update_trailing_stop
    rw [if_pos hdir]
    dsimp only
    split_ifs with h1 h2
    · dsimp only
      exact le_of_lt h2
    · exact le_rfl
    · exact le_rfl
  · intro hdir
    have hnl : ¬ p.direction = "long" := by simp [hdir]
    unfold update_trailing_stop
    rw [if_neg hnl, if_pos hdir]
    dsimp only
    split_ifs with h1 h2
    · dsimp only
      exact le_of_lt h2
    · exact le_rfl
    · exact le_rfl

/-- C3 (amended): on a check at or past the position's maximum hold time, the
max-hold rule is evaluated first and a successful full-close action of type
`max_hold_time_close` is the first entry of the returned action set; however
the position is not removed from tracking (its ticket is still mapped
afterwards), and the remaining rules are still evaluated on the same call. -/
theorem max_hold_close_first (env : MarketEnv) (t : ℕ) (ps : PMState)
    (p : PositionRecord) (hp : ps t = some p)
    (hh : p.max_hold_time ≤ env.current_time) :
    (check_position_management env t ps).1.status = CheckStatus.completed
    ∧ (check_position_management env t ps).1.actions.head? =
        some { action_type := ActionType.max_hold_time_close, action_taken := true }
    ∧ ((check_position_management env t ps).2 t).isSome = true := by
  have he : check_position_management env t ps
      = ((manage_checks env p).1, set_position ps t (manage_checks env p).2) := by
    unfold check_position_management
    rw [hp]
  rw [he]
  refine ⟨rfl, ?_, ?_⟩
  · unfold manage_checks
    dsimp only
    rw [if_pos hh]
    simp [handle_max_hold_time]
  · simp [set_position]

/-- C3 witness: the breakout position checked 200 minutes after entry. -/
theorem max_hold_close_first_witness :
    (check_position_management envHold 1 psHold).1.status = CheckStatus.completed
    ∧ (check_position_management envHold 1 psHold).1.actions.head? =
        some { action_type := ActionType.max_hold_time_close, action_taken := true }
    ∧ ((check_position_management envHold 1 psHold).2 1).isSome = true :=
  max_hold_close_first envHold 1 psHold recHold rfl (by decide)

/-- C3 counterexample to the claim as stated: at 200 minutes the max-hold
close fires, yet the same call still evaluates and fires two further actions
(the claim says the rule overrides all others), and the ticket is still
tracked afterwards (the claim says the position is removed from tracking). -/
theorem max_hold_close_counterexample :
    recHold.max_hold_time ≤ envHold.current_time
    ∧ (check_position_management envHold 1 psHold).1.actions.length = 2
    ∧ ((check_position_management envHold 1 psHold).2 1).isSome = true := by
  refine ⟨by decide, by decide, by decide⟩

/-- The partial-exit check fires for a long position at or above TP1. -/
theorem check_partial_exit_long_fires (env : MarketEnv) (p : PositionRecord)
    (hdir : p.direction = "long") (hpx : p.take_profit_1 ≤ env.current_price) :
    check_partial_exit env p =
      ({ action_type := ActionType.partial_exit, action_taken := true,
         exit_size := some (p.original_size * partial_exit_ratio), new_stop := none },
       { p with partial_exit_done := true }) := by
  unfold check_partial_exit
  rw [if_pos ⟨hdir, hpx⟩]

/-- The partial-exit check fires for a short position at or below TP1. -/
theorem check_partial_exit_short_fires (env : MarketEnv) (p : PositionRecord)
    (hdir : p.direction = "short") (hpx : env.current_price ≤ p.take_profit_1) :
    check_partial_exit env p =
      ({ action_type := ActionType.partial_exit, action_taken := true,
         exit_size := some (p.original_size * partial_exit_ratio), new_stop := none },
       { p with partial_exit_done := true }) := by
  have hnl : ¬ (p.direction = "long" ∧ p.take_profit_1 ≤ env.current_price) := by
    rintro ⟨h, -⟩
    rw [hdir] at h
    exact absurd h (by decide)
  unfold check_partial_exit
  rw [if_neg hnl, if_pos ⟨hdir, hpx⟩]

/-- The mean-reversion check fires for a long position at or above the
target. -/
theorem check_mean_reversion_long_fires (env : MarketEnv) (p : PositionRecord)
    (hdir : p.direction = "long") (hpx : p.take_profit_1 ≤ env.current_price) :
    check_mean_reversion_exit env p =
      { action_type := ActionType.mean_reversion_exit, action_taken := true } := by
  unfold check_mean_reversion_exit
  rw [if_pos ⟨hdir, hpx⟩]

/-- The mean-reversion check fires for a short position at or below the
target. -/
theorem check_mean_reversion_short_fires (env : MarketEnv) (p : PositionRecord)
    (hdir : p.direction = "short") (hpx : env.current_price ≤ p.take_profit_1) :
    check_mean_reversion_exit env p =
      { action_type := ActionType.mean_reversion_exit, action_taken := true } := by
  have hnl : ¬ (p.direction = "long" ∧ p.take_profit_1 ≤ env.current_price) := by
    rintro ⟨h, -⟩
    rw [hdir] at h
    exact absurd h (by decide)
  unfold check_mean_reversion_exit
  rw [if_neg hnl, if_pos ⟨hdir, hpx⟩]

/-- A mean-reversion long setup with target (TP1) 21250. -/
def sdMeanRev : SetupData :=
  { setup_type := "mean_reversion", setup_direction := "long",
    entry_price := 21200, stop_loss_price := 21150,
    take_profit_1 := 21250, take_profit_2 := 21300 }

/-- The record tracked for ticket 1 after opening the mean-reversion
position at time 0. -/
def recMR : PositionRecord := (pm_open_position 0 sdMeanRev 1 (fun _ => none)).1

/-- The tracking state holding only the mean-reversion position. -/
def psMR : PMState := (pm_open_position 0 sdMeanRev 1 (fun _ => none)).2

/-- A market snapshot inside the hold window with price exactly at the
21250 target. -/
def envMR : MarketEnv :=
  { current_time := 60, current_price := 21250,
    find_new_higher_low := fun _ => 0, find_new_lower_high := fun _ => 0 }

/-- C4 (amended): when a mean-reversion position's price reaches the
designated target (TP1), exactly one successful `mean_reversion_exit` action
fires and it issues a full close of the remaining position; however the
mean-reversion rule does not supersede the partial-exit rule — when the
partial exit is still pending, a successful partial-exit action for 50% of
the original size fires on the same call — and the position is not removed
from tracking. -/
theorem mean_reversion_full_exit (env : MarketEnv) (t : ℕ) (ps : PMState)
    (p : PositionRecord) (hp : ps t = some p)
    (hmr : p.setup_type = "mean_reversion")
    (hreach : (p.direction = "long" ∧ p.take_profit_1 ≤ env.current_price)
      ∨ (p.direction = "short" ∧ env.current_price ≤ p.take_profit_1)) :
    ((check_position_management env t ps).1.actions.filter
        (fun a => decide (a.action_type = ActionType.mean_reversion_exit)))
      = [{ action_type := ActionType.mean_reversion_exit, action_taken := true }]
    ∧ (p.partial_exit_done = false →
        { action_type := ActionType.partial_exit, action_taken := true,
          exit_size := some (p.original_size * partial_exit_ratio), new_stop := none }
          ∈ (check_position_management env t ps).1.actions)
    ∧ ((check_position_management env t ps).2 t).isSome = true := by
  have he : check_position_management env t ps
      = ((manage_checks env p).1, set_position ps t (manage_checks env p).2) := by
    unfold check_position_management
    rw [hp]
  rw [he]
  have hq : ∀ q : PositionRecord, q.setup_type = p.setup_type →
      q.direction = p.direction → q.take_profit_1 = p.take_profit_1 →
      check_mean_reversion_exit env (update_trailing_stop env q).2
        = { action_type := ActionType.mean_reversion_exit, action_taken := true } := by
    intro q hqs hqd hqt
    obtain ⟨hd3, -, htp3, -, -⟩ := update_trailing_stop_preserves env q
    rcases hreach with ⟨hdir, hpx⟩ | ⟨hdir, hpx⟩
    · exact check_mean_reversion_long_fires env _ (by rw [hd3, hqd]; exact hdir)
        (by rw [htp3, hqt]; exact hpx)
    · exact check_mean_reversion_short_fires env _ (by rw [hd3, hqd]; exact hdir)
        (by rw [htp3, hqt]; exact hpx)
  have hmr3 : ∀ q : PositionRecord, q.setup_type = p.setup_type →
      (update_trailing_stop env q).2.setup_type = "mean_reversion" := by
    intro q hqs
    obtain ⟨-, hst3, -, -, -⟩ := update_trailing_stop_preserves env q
    rw [hst3, hqs, hmr]
  have hfire : p.partial_exit_done = false →
      check_partial_exit env p =
        ({ action_type := ActionType.partial_exit, action_taken := true,
           exit_size := some (p.original_size * partial_exit_ratio), new_stop := none },
         { p with partial_exit_done := true }) := by
    intro _
    rcases hreach with ⟨hdir, hpx⟩ | ⟨hdir, hpx⟩
    · exact check_partial_exit_long_fires env p hdir hpx
    · exact check_partial_exit_short_fires env p hdir hpx
  have htr : ∀ q : PositionRecord,
      (update_trailing_stop env q).1.action_type = ActionType.trailing_stop :=
    fun q => (update_trailing_stop_preserves env q).2.2.2.2
  cases hb : p.partial_exit_done with
  | true =>
    have hacts : (manage_checks env p).1.actions
        = (if p.max_hold_time ≤ env.current_time
            then [handle_max_hold_time p] else [])
          ++ []
          ++ (if (update_trailing_stop env p).1.action_taken
              then [(update_trailing_stop env p).1] else [])
          ++ [{ action_type := ActionType.mean_reversion_exit, action_taken := true }] := by
      unfold manage_checks
      dsimp only
      rw [hb]
      try rw [if_pos (show (true : Bool) = true from rfl)]
      dsimp only
      rw [if_pos (hmr3 p rfl), hq p rfl rfl rfl]
      rfl
    refine ⟨?_, ?_, ?_⟩
    · rw [hacts]
      simp only [List.filter_append]
      have h1 : List.filter
          (fun a => decide (a.action_type = ActionType.mean_reversion_exit))
          (if p.max_hold_time ≤ env.current_time
            then [handle_max_hold_time p] else []) = [] := by
        split_ifs <;> rfl
      have h3 : List.filter
          (fun a => decide (a.action_type = ActionType.mean_reversion_exit))
          (if (update_trailing_stop env p).1.action_taken
            then [(update_trailing_stop env p).1] else []) = [] := by
        split_ifs <;> simp [List.filter, htr p]
      rw [h1, h3]
      rfl
    · intro hfalse
      exact absurd hfalse (by decide)
    · simp [set_position]
  | false =>
    have hacts : (manage_checks env p).1.actions
        = (if p.max_hold_time ≤ env.current_time
            then [handle_max_hold_time p] else [])
          ++ [{ action_type := ActionType.partial_exit, action_taken := true,
                exit_size := some (p.original_size * partial_exit_ratio), new_stop := none }]
          ++ (if (update_trailing_stop env { p with partial_exit_done := true }).1.action_taken
              then [(update_trailing_stop env { p with partial_exit_done := true }).1] else [])
          ++ [{ action_type := ActionType.mean_reversion_exit, action_taken := true }] := by
      unfold manage_checks
      dsimp only
      rw [hb]
      rw [hfire hb]
      rw [if_neg (show ¬ ((false : Bool) = true) by decide)]
      dsimp only
      try rw [if_pos (show (true : Bool) = true from rfl)]
      rw [if_pos (hmr3 { p with partial_exit_done := true } rfl),
        hq { p with partial_exit_done := true } rfl rfl rfl]
      rfl
    refine ⟨?_, ?_, ?_⟩
    · rw [hacts]
      simp only [List.filter_append]
      have h1 : List.filter
          (fun a => decide (a.action_type = ActionType.mean_reversion_exit))
          (if p.max_hold_time ≤ env.current_time
            then [handle_max_hold_time p] else []) = [] := by
        split_ifs <;> rfl
      have h3 : List.filter
          (fun a => decide (a.action_type = ActionType.mean_reversion_exit))
          (if (update_trailing_stop env { p with partial_exit_done := true }).1.action_taken
            then [(update_trailing_stop env { p with partial_exit_done := true }).1]
            else []) = [] := by
        split_ifs <;> simp [List.filter, htr { p with partial_exit_done := true }]
      rw [h1, h3]
      rfl
    · intro _
      rw [hacts]
      simp
    · simp [set_position]

/-- C4 witness: the mean-reversion position checked with price at the
target. -/
theorem mean_reversion_full_exit_witness :
    ((check_position_management envMR 1 psMR).1.actions.filter
        (fun a => decide (a.action_type = ActionType.mean_reversion_exit)))
      = [{ action_type := ActionType.mean_reversion_exit, action_taken := true }]
    ∧ (recMR.partial_exit_done = false →
        { action_type := ActionType.partial_exit, action_taken := true,
          exit_size := some (recMR.original_size * partial_exit_ratio), new_stop := none }
          ∈ (check_position_management envMR 1 psMR).1.actions)
    ∧ ((check_position_management envMR 1 psMR).2 1).isSome = true :=
  mean_reversion_full_exit envMR 1 psMR recMR rfl rfl (Or.inl ⟨rfl, by decide⟩)

/-- C4 counterexample to the claim as stated: with the mean-reversion
position at its 21250 target, a successful 50% partial-exit action fires on
the same call as the mean-reversion exit (the claim says no partial-exit
action also fires), and the ticket is still tracked afterwards (the claim
says the position is removed from tracking). -/
theorem mean_reversion_exit_counterexample :
    (check_position_management envMR 1 psMR).1.actions
      = [{ action_type := ActionType.partial_exit, action_taken := true,
           exit_size := some (recMR.original_size * partial_exit_ratio), new_stop := none },
         { action_type := ActionType.mean_reversion_exit, action_taken := true }]
    ∧ ((check_position_management envMR 1 psMR).2 1).isSome = true := by
  refine ⟨rfl, rfl⟩

/-- One full management pass preserves a record's direction and can only
ratchet its trailing stop (up for longs, down for shorts). -/
theorem manage_checks_ratchet (env : MarketEnv) (p : PositionRecord) :
    ((manage_checks env p).2).direction = p.direction
    ∧ (p.direction = "long" →
        p.trailing_stop_price ≤ ((manage_checks env p).2).trailing_stop_price)
    ∧ (p.direction = "short" →
        ((manage_checks env p).2).trailing_stop_price ≤ p.trailing_stop_price) := by
  cases hb : p.partial_exit_done with
  | true =>
    have hrec : (manage_checks env p).2 = (update_trailing_stop env p).2 := by
      unfold manage_checks
      dsimp only
      rw [hb, if_pos (show (true : Bool) = true from rfl)]
    rw [hrec]
    obtain ⟨hd, -, -, -, -⟩ := update_trailing_stop_preserves env p
    obtain ⟨hl, hs⟩ := update_trailing_stop_ratchet env p
    exact ⟨hd, hl, hs⟩
  | false =>
    obtain ⟨hqd, -, -, hqt⟩ := check_partial_exit_preserves env p
    have hrec : (manage_checks env p).2
        = (update_trailing_stop env (check_partial_exit env p).2).2 := by
      unfold manage_checks
      dsimp only
      rw [hb, if_neg (show ¬ ((false : Bool) = true) by decide)]
    rw [hrec]
    obtain ⟨hd, -, -, -, -⟩ := update_trailing_stop_preserves env (check_partial_exit env p).2
    obtain ⟨hl, hs⟩ := update_trailing_stop_ratchet env (check_partial_exit env p).2
    refine ⟨by rw [hd, hqd], ?_, ?_⟩
    · intro hdir
      calc p.trailing_stop_price
          = (check_partial_exit env p).2.trailing_stop_price := hqt.symm
        _ ≤ _ := hl (by rw [hqd]; exact hdir)
    · intro hdir
      calc (update_trailing_stop env (check_partial_exit env p).2).2.trailing_stop_price
          ≤ (check_partial_exit env p).2.trailing_stop_price :=
            hs (by rw [hqd]; exact hdir)
        _ = p.trailing_stop_price := hqt

/-- One `check_position_management` call on a tracked ticket leaves the
ticket tracked, preserves its direction, and can only ratchet its trailing
stop. -/
theorem check_position_management_ratchet (env : MarketEnv) (t : ℕ)
    (ps : PMState) (p : PositionRecord) (hp : ps t = some p) :
    ∃ p', (check_position_management env t ps).2 t = some p'
      ∧ p'.direction = p.direction
      ∧ (p.direction = "long" → p.trailing_stop_price ≤ p'.trailing_stop_price)
      ∧ (p.direction = "short" → p'.trailing_stop_price ≤ p.trailing_stop_price) := by
  have he : check_position_management env t ps
      = ((manage_checks env p).1, set_position ps t (manage_checks env p).2) := by
    unfold check_position_management
    rw [hp]
  obtain ⟨h1, h2, h3⟩ := manage_checks_ratchet env p
  refine ⟨(manage_checks env p).2, ?_, h1, h2, h3⟩
  rw [he]
  simp [set_position]

/-- C5: across every sequence of `check_position_management` calls on a
tracked position, the trailing stop is a ratchet — monotonically
non-decreasing for a long position and monotonically non-increasing for a
short one — and the position's direction never changes. -/
theorem trailing_stop_is_ratchet (envs : List MarketEnv) (t : ℕ)
    (ps : PMState) (p : PositionRecord) (hp : ps t = some p) :
    ∃ p', run_checks envs t ps t = some p'
      ∧ p'.direction = p.direction
      ∧ (p.direction = "long" → p.trailing_stop_price ≤ p'.trailing_stop_price)
      ∧ (p.direction = "short" → p'.trailing_stop_price ≤ p.trailing_stop_price) := by
  induction envs generalizing ps p with
  | nil => exact ⟨p, hp, rfl, fun _ => le_rfl, fun _ => le_rfl⟩
  | cons e rest ih =>
    obtain ⟨q, hq1, hq2, hq3, hq4⟩ := check_position_management_ratchet e t ps p hp
    obtain ⟨p', h1, h2, h3, h4⟩ := ih ((check_position_management e t ps).2) q hq1
    refine ⟨p', ?_, by rw [h2, hq2], ?_, ?_⟩
    · simpa [run_checks] using h1
    · intro hdir
      exact le_trans (hq3 hdir) (h3 (by rw [hq2]; exact hdir))
    · intro hdir
      exact le_trans (h4 (by rw [hq2]; exact hdir)) (hq4 hdir)

/-- C5 witness: two consecutive checks on the tracked breakout long
position. -/
theorem trailing_stop_is_ratchet_witness :
    ∃ p', run_checks [envMR, envHold] 1 psHold 1 = some p'
      ∧ p'.direction = recHold.direction
      ∧ (recHold.direction = "long" →
          recHold.trailing_stop_price ≤ p'.trailing_stop_price)
      ∧ (recHold.direction = "short" →
          p'.trailing_stop_price ≤ recHold.trailing_stop_price) :=
  trailing_stop_is_ratchet [envMR, envHold] 1 psHold recHold rfl

/-! ### News-calendar theorems -/

/-- The specification's scenario event: Non-Farm Payrolls at 08:30, giving
the blackout period 08:15 (minute 495) to 09:00 (minute 540). -/
def nfpEvent : Event :=
  { time := "08:30", title := "Non-Farm Payrolls", impact := "high" }

/-- A different high-impact source event at the same clock time. -/
def cpiEvent : Event :=
  { time := "08:30", title := "CPI", impact := "high" }

/-- The calendar manager tracking only the NFP blackout. -/
def nfpState : CalState :=
  { blackout_periods := identify_news_blackout_periods [nfpEvent] 15 30
    last_update := none }

/-- The calendar manager tracking only the CPI blackout. -/
def cpiState : CalState :=
  { blackout_periods := identify_news_blackout_periods [cpiEvent] 15 30
    last_update := none }

/-- C7 (amended): `is_safe_to_trade(t)` answers false exactly when `t` lies
inside some tracked blackout period, both bounds inclusive, and true for `t`
outside every period; the false-reason carries a generic high-impact-event
label together with the start time of a containing period, not the name of
the source event.  In the 08:15–09:00 scenario, 08:45 (minute 525) is
refused with that reason and 09:01 (minute 541) is allowed. -/
theorem is_safe_to_trade_blackouts (tm : ℤ) (bps : List (ℤ × ℤ)) (st : CalState) :
    ((is_trading_allowed_now tm bps).1 = false ↔
      ∃ se ∈ bps, se.1 ≤ tm ∧ tm ≤ se.2)
    ∧ ((is_trading_allowed_now tm bps).1 = false →
        ∃ se ∈ bps, (se.1 ≤ tm ∧ tm ≤ se.2)
          ∧ (is_trading_allowed_now tm bps).2
            = "Trading paused: high-impact news event at " ++ format_hm se.1)
    ∧ is_safe_to_trade tm st = is_trading_allowed_now tm st.blackout_periods
    ∧ is_safe_to_trade 525 nfpState
        = (false, "Trading paused: high-impact news event at 08:15")
    ∧ (is_safe_to_trade 541 nfpState).1 = true := by
  refine ⟨?_, ?_, rfl, by decide, by decide⟩
  · cases hf : bps.find? (fun se => decide (se.1 ≤ tm ∧ tm ≤ se.2)) with
    | none =>
      have hnone := List.find?_eq_none.mp hf
      simp only [is_trading_allowed_now, hf]
      constructor
      · intro h
        exact absurd h (by decide)
      · rintro ⟨se, hse, hin⟩
        exact (hnone se hse (by simp only [decide_eq_true_eq]; exact hin)).elim
    | some se =>
      have hmem := List.mem_of_find?_eq_some hf
      have hin : se.1 ≤ tm ∧ tm ≤ se.2 := by
        have h := List.find?_some hf
        simpa using h
      simp only [is_trading_allowed_now, hf]
      exact ⟨fun _ => ⟨se, hmem, hin⟩, fun _ => by simp⟩
  · intro hfalse
    cases hf : bps.find? (fun se => decide (se.1 ≤ tm ∧ tm ≤ se.2)) with
    | none =>
      rw [is_trading_allowed_now, hf] at hfalse
      exact absurd hfalse (by decide)
    | some se =>
      have hmem := List.mem_of_find?_eq_some hf
      have hin : se.1 ≤ tm ∧ tm ≤ se.2 := by
        have h := List.find?_some hf
        simpa using h
      refine ⟨se, hmem, hin, ?_⟩
      rw [is_trading_allowed_now, hf]

/-- C7 counterexample to the claim as stated: two different source events
(Non-Farm Payrolls and CPI, distinct titles) at the same time produce
character-for-character the same refusal reason, so the false-reason does
not name or reference the source event of the period. -/
theorem is_safe_to_trade_reason_counterexample :
    is_safe_to_trade 525 nfpState
      = (false, "Trading paused: high-impact news event at 08:15")
    ∧ is_safe_to_trade 525 cpiState
      = (false, "Trading paused: high-impact news event at 08:15")
    ∧ nfpEvent.title ≠ cpiEvent.title := by
  refine ⟨by decide, by decide, by decide⟩

end StructureScout
